import Mathlib

set_option autoImplicit false

/-!
Shallow embedding of the message-processing pipeline of the
hng12-stg3-ai-text-processor repository.

Two variants exist in the source:
* `ChatTranslator` — the component in `src/app/page.js`
  (submit/detect, delete, clear-translation, translate with a fresh
  detection and a same-language short-circuit; per-message `loading`
  and `error` fields; translations stored as an object keyed by the
  target-language tag).
* `Home` — the component in `src/unnamed/part_000`
  (send/detect, summarize, translate; a single global `loading` flag and
  a single global `error` string; each message stores one `translation`
  plus the `targetLang` it was made for, and optionally one `summary`).

External services (language detector, translator, summarizer, the
`Intl.DisplayNames` lookup) are parameters: each handler takes the
service outcome as an explicit `Except` argument and reports the calls
it issued as a list of `Call` values.  An async handler is split into
the store update applied synchronously at issue time and a `finish`
function applied to whatever store exists when the service call
resolves.
-/

/-- Drop leading whitespace characters. -/
def dropWhitespaceLeft : List Char → List Char
  | [] => []
  | c :: cs => if c.isWhitespace then dropWhitespaceLeft cs else c :: cs

/-- Model of JS `String.prototype.trim()`: strip whitespace from both ends
(structurally recursive so that concrete inputs evaluate). -/
def jsTrim (s : String) : String :=
  ⟨(dropWhitespaceLeft ((dropWhitespaceLeft s.data).reverse)).reverse⟩

namespace ChatTranslator

/-- One entry of the array returned by `detector.detect` (page.js line 34):
a language tag plus a numeric confidence.  The decimal string formatting
`(confidence * 100).toFixed(1)` (line 38) is presentation; we keep the
numeric value scaled by 100. -/
structure DetEntry where
  detectedLanguage : String
  confidence : ℚ
deriving DecidableEq

/-- The message record built in `handleSubmit` (page.js lines 23-30) plus
the fields later patched in by translate handlers (`loading`, `error`).
In JS the latter are initially absent (undefined, falsy); we model them
as `false` / `none`. -/
structure Msg where
  id : Nat
  text : String
  detectedLang : String
  confidence : ℚ
  translations : List (String × String)
  showTranslation : Bool
  loading : Bool
  error : Option String
deriving DecidableEq

abbrev Store := List Msg

/-- A service call issued by a handler. -/
inductive Call where
  | detect (text : String)
  | translate (sourceLanguage targetLanguage text : String)
deriving DecidableEq

/-- JS object spread update `\x7b ...obj, [k]: v \x7d` on an object with
unique keys: replace the value of `k` in place if present, else append
the new entry at the end (page.js lines 96-99). -/
def setKey : List (String × String) → String → String → List (String × String)
  | [], k, v => [(k, v)]
  | p :: rest, k, v => if p.1 = k then (k, v) :: rest else p :: setKey rest k v

/-- The common source pattern `prev.map(msg => msg.id === id ? patch(msg) : msg)`:
an id-scoped patch applied to the live store. -/
def applyById (messageId : Nat) (f : Msg → Msg) (s : Store) : Store :=
  s.map (fun msg => if msg.id == messageId then f msg else msg)

/-- Output of `handleSubmit` (page.js lines 19-45).  The catch branch only
logs to the console (line 43); the component has no user-visible error
channel for submit, so `surfacedError` is `none` on every path. -/
structure SubmitOut where
  messages : Store
  inputText : String
  calls : List Call
  surfacedError : Option String
  consoleErrors : Nat
deriving DecidableEq

/-- `handleSubmit` (page.js lines 19-45).  `displayNames` models
`Intl.DisplayNames([locale]).of(tag)` used by `languageTagToHumanReadable`
(lines 120-123); `now` models `Date.now()`; `detectRes` is the outcome of
`detector.detect(inputText.trim())`.  An empty result array makes the
destructuring on line 35 throw, which the catch swallows after logging. -/
def handleSubmit (displayNames : String → String → String) (now : Nat)
    (inputText : String) (detectRes : Except Unit (List DetEntry))
    (messages : Store) : SubmitOut :=
  if jsTrim inputText = "" then
    { messages := messages, inputText := inputText, calls := [],
      surfacedError := none, consoleErrors := 0 }
  else
    match detectRes with
    | .ok (e :: _) =>
      let newMessage : Msg :=
        { id := now, text := inputText,
          detectedLang := displayNames "en" e.detectedLanguage,
          confidence := e.confidence * 100,
          translations := [], showTranslation := false,
          loading := false, error := none }
      { messages := newMessage :: messages, inputText := "",
        calls := [.detect (jsTrim inputText)],
        surfacedError := none, consoleErrors := 0 }
    | .ok [] =>
      { messages := messages, inputText := inputText,
        calls := [.detect (jsTrim inputText)],
        surfacedError := none, consoleErrors := 1 }
    | .error _ =>
      { messages := messages, inputText := inputText,
        calls := [.detect (jsTrim inputText)],
        surfacedError := none, consoleErrors := 1 }

/-- `handleDeleteMessage` (page.js lines 48-50):
`prev.filter(msg => msg.id !== messageId)`. -/
def handleDeleteMessage (messageId : Nat) (s : Store) : Store :=
  s.filter (fun msg => msg.id != messageId)

/-- The patch of `handleClearTranslation` (page.js lines 53-59): the whole
`translations` object is replaced by `\x7b\x7d` and `showTranslation` reset. -/
def clearTranslationFn (msg : Msg) : Msg :=
  { msg with translations := [], showTranslation := false }

/-- `handleClearTranslation` (page.js lines 53-59). -/
def handleClearTranslation (messageId : Nat) (s : Store) : Store :=
  applyById messageId clearTranslationFn s

/-- The patch applied synchronously when `handleTranslate` starts
(page.js lines 62-67). -/
def setLoadingFn (msg : Msg) : Msg := { msg with loading := true }

/-- The success patch of `handleTranslate` (page.js lines 92-105). -/
def translateSuccessFn (targetLanguage translation : String) (msg : Msg) : Msg :=
  { msg with translations := setKey msg.translations targetLanguage translation,
             showTranslation := true, loading := false }

/-- The error string written by the catch branch (page.js line 113). -/
def translateFailureMessage : String :=
  "Translation failed. Please try another language pair."

/-- The failure patch of `handleTranslate` (page.js lines 108-117). -/
def translateFailureFn (msg : Msg) : Msg :=
  { msg with loading := false, error := some translateFailureMessage }

/-- The patch of the same-language early exit (page.js lines 78-80). -/
def sameLanguageFn (msg : Msg) : Msg := { msg with loading := false }

/-- The alert text of the same-language early exit (page.js line 77). -/
def sameLanguageAlert : String := "⚠️ Source and target languages are the same!"

/-- The asynchronous tail of one `handleTranslate` invocation:
the service calls it issued, the alerts it raised, and the completion
patch `finish` applied to the live store when the call chain resolves. -/
structure Run where
  calls : List Call
  alerts : List String
  finish : Store → Store

/-- The synchronous head of `handleTranslate` (page.js lines 62-67). -/
def handleTranslateStart (messageId : Nat) : Store → Store :=
  applyById messageId setLoadingFn

/-- `handleTranslate` (page.js lines 61-119) after the loading patch.
`snapshot` is the `messages` closure captured at render time (line 70);
`detectRes` is the outcome of the fresh `detector.detect(message.text.trim())`
(lines 71-72) and `translateRes` the outcome of `translator.translate`
(lines 85-90).  If the id is not found, `message.text` throws before any
service call and the catch applies the failure patch; an empty detection
array throws at `detectionResult[0].detectedLanguage` (line 73). -/
def handleTranslateRun (messageId : Nat) (targetLanguage : String)
    (snapshot : Store) (detectRes : Except Unit (List DetEntry))
    (translateRes : Except Unit String) : Run :=
  match snapshot.find? (fun msg => msg.id == messageId) with
  | none =>
    { calls := [], alerts := [], finish := applyById messageId translateFailureFn }
  | some message =>
    match detectRes with
    | .error _ =>
      { calls := [.detect (jsTrim message.text)], alerts := [],
        finish := applyById messageId translateFailureFn }
    | .ok [] =>
      { calls := [.detect (jsTrim message.text)], alerts := [],
        finish := applyById messageId translateFailureFn }
    | .ok (e :: _) =>
      if e.detectedLanguage = targetLanguage then
        { calls := [.detect (jsTrim message.text)], alerts := [sameLanguageAlert],
          finish := applyById messageId sameLanguageFn }
      else
        match translateRes with
        | .ok translation =>
          { calls := [.detect (jsTrim message.text),
                      .translate e.detectedLanguage targetLanguage (jsTrim message.text)],
            alerts := [],
            finish := applyById messageId (translateSuccessFn targetLanguage translation) }
        | .error _ =>
          { calls := [.detect (jsTrim message.text),
                      .translate e.detectedLanguage targetLanguage (jsTrim message.text)],
            alerts := [],
            finish := applyById messageId translateFailureFn }

/-- The per-message translate button is disabled exactly while that
message is loading (page.js line 176, `disabled=\x7bmessage.loading\x7d`). -/
def translateButtonDisabled (msg : Msg) : Bool := msg.loading

end ChatTranslator

namespace Home

/-- The message record of the `Home` variant (part_000 lines 32-35 plus the
fields assigned later): `detectedLang` is `detectedLang[0]?.language`
(line 51, possibly undefined), and each message holds at most one
`translation` together with the `targetLang` it was produced for
(lines 102-103) and at most one `summary` (line 78). -/
structure Msg where
  id : String
  text : String
  detectedLang : Option String
  translation : Option String
  targetLang : Option String
  summary : Option String
deriving DecidableEq

/-- A service call issued by a `Home` handler.  The translate call carries
the arguments of `window.ai.translator.translate` (part_000 lines 95-99):
the text, the selected target language, and the *stored*
`message.detectedLang` as source. -/
inductive Call where
  | detect (text : String)
  | translate (text : String) (targetLang : String) (sourceLang : Option String)
  | summarize (text : String)
deriving DecidableEq

/-- JS `a || b` on an optional error message: an absent or empty string
falls through to the fallback (part_000 lines 60, 81, 106). -/
def jsOr (s : Option String) (fallback : String) : String :=
  match s with
  | some v => if v = "" then fallback else v
  | none => fallback

/-- Model of the message of the TypeError raised when the id is absent and
`messages[-1].text` is read (part_000 lines 92-96): `err?.message` of a
runtime TypeError; the exact wording is runtime-dependent. -/
def typeErrorMessage : String := "TypeError: cannot read properties of undefined"

/-- Output of `handleSend` (part_000 lines 26-65).  `error` is the value of
the global error slot after the handler returns; `loading` always ends
`false` (the finally branch, line 63). -/
structure SendOut where
  messages : List Msg
  inputText : String
  error : String
  calls : List Call
deriving DecidableEq

/-- `handleSend` (part_000 lines 26-65).  `aiAvailable` models the
`window.ai && window.ai.languageDetection` probe (line 43); `detectRes`
is the outcome of `window.ai.languageDetection.detect(inputText)`
(line 49, on the untrimmed input), its payload the list of detected
language codes. -/
def handleSend (now : Nat) (inputText : String) (aiAvailable : Bool)
    (detectRes : Except (Option String) (List String))
    (messages : List Msg) : SendOut :=
  if jsTrim inputText = "" then
    { messages := messages, inputText := inputText,
      error := "Please enter some text", calls := [] }
  else if !aiAvailable then
    { messages := messages, inputText := inputText,
      error := "Language detection service is unavailable.", calls := [] }
  else
    match detectRes with
    | .ok langs =>
      let newMessage : Msg :=
        { id := toString now, text := inputText, detectedLang := langs.head?,
          translation := none, targetLang := none, summary := none }
      { messages := messages ++ [newMessage], inputText := "",
        error := "", calls := [.detect inputText] }
    | .error e =>
      { messages := messages, inputText := inputText,
        error := jsOr e "Failed to detect language", calls := [.detect inputText] }

/-- The asynchronous tail of a `Home` handler: the calls issued, the store
update `finish` applied at completion, and the value of the global error
slot after completion. -/
structure Run where
  calls : List Call
  finish : List Msg → List Msg
  errorAfter : String

/-- `handleTranslate` (part_000 lines 87-110).  The message is resolved by
`findIndex` into the `messages` closure captured at render time, and on
success the whole store is replaced by a copy of that stale snapshot with
index `i` patched (lines 101-104) — the live store passed to `finish` is
ignored.  The patch overwrites the single `translation` / `targetLang`
pair.  On failure the store is untouched and the global error is set. -/
def handleTranslateRun (messageId targetLang : String) (snapshot : List Msg)
    (translateRes : Except (Option String) String) : Run :=
  match snapshot.findIdx? (fun m => m.id == messageId) with
  | none => { calls := [], finish := fun live => live, errorAfter := typeErrorMessage }
  | some i =>
    match snapshot[i]? with
    | none => { calls := [], finish := fun live => live, errorAfter := typeErrorMessage }
    | some message =>
      match translateRes with
      | .ok translation =>
        { calls := [.translate message.text targetLang message.detectedLang],
          finish := fun _live =>
            snapshot.set i { message with translation := some translation,
                                          targetLang := some targetLang },
          errorAfter := "" }
      | .error e =>
        { calls := [.translate message.text targetLang message.detectedLang],
          finish := fun live => live,
          errorAfter := jsOr e "Translation failed. Language pair may not be supported." }

/-- `handleSummarize` (part_000 lines 67-85): same snapshot-index pattern;
`window.ai.summarizer.summarize(message.text)` is called unconditionally
once the message is found — the handler itself checks neither the
detected language nor the text length. -/
def handleSummarizeRun (messageId : String) (snapshot : List Msg)
    (summarizeRes : Except (Option String) String) : Run :=
  match snapshot.findIdx? (fun m => m.id == messageId) with
  | none => { calls := [], finish := fun live => live, errorAfter := typeErrorMessage }
  | some i =>
    match snapshot[i]? with
    | none => { calls := [], finish := fun live => live, errorAfter := typeErrorMessage }
    | some message =>
      match summarizeRes with
      | .ok summary =>
        { calls := [.summarize message.text],
          finish := fun _live => snapshot.set i { message with summary := some summary },
          errorAfter := "" }
      | .error e =>
        { calls := [.summarize message.text],
          finish := fun live => live,
          errorAfter := jsOr e "Failed to generate summary" }

/-- The render-time guard of the Summarize button (part_000 line 124):
`message.detectedLang === "en" && message.text.length > 150`.  This is the
only place the summarize precondition is checked. -/
def summarizeButtonShown (m : Msg) : Bool :=
  m.detectedLang == some "en" && decide (150 < m.text.length)

end Home

/-- Concrete `ChatTranslator` message fixture. -/
def msgHola : ChatTranslator.Msg :=
  { id := 1, text := "Hola", detectedLang := "Spanish", confidence := 95,
    translations := [], showTranslation := false, loading := false, error := none }

/-- Concrete detection entry fixture: Spanish with full confidence. -/
def detEs : ChatTranslator.DetEntry := { detectedLanguage := "es", confidence := 1 }

/-- Concrete `ChatTranslator` message fixture holding translations for two
target languages. -/
def msgTwoTranslations : ChatTranslator.Msg :=
  { id := 1, text := "Hello", detectedLang := "English", confidence := 95,
    translations := [("es", "Hola"), ("fr", "Bonjour")], showTranslation := true,
    loading := false, error := none }

/-- Concrete `Home` message fixture that already stores a Spanish
translation. -/
def msgHomeEs : Home.Msg :=
  { id := "1", text := "Hello", detectedLang := some "en",
    translation := some "Hola", targetLang := some "es", summary := none }

/-- Concrete `Home` message fixture with French detected language and a
500-character text (the summarize-guard scenario of the spec). -/
def msgHomeFr : Home.Msg :=
  { id := "1", text := String.mk (List.replicate 500 'a'), detectedLang := some "fr",
    translation := none, targetLang := none, summary := none }

namespace ChatTranslator

/-- An id-scoped patch is the identity on a store none of whose members
carry the id. -/
theorem applyById_eq_of_all_ne (messageId : Nat) (f : Msg → Msg) :
    ∀ s : Store, (∀ m ∈ s, (m.id == messageId) = false) → applyById messageId f s = s := by
  intro s
  induction s with
  | nil => intro _; rfl
  | cons m rest ih =>
    intro h
    have hm := h m (List.mem_cons_self m rest)
    have hrest := ih (fun x hx => h x (List.mem_cons_of_mem m hx))
    have hcond : ¬ ((m.id == messageId) = true) := by simp [hm]
    calc applyById messageId f (m :: rest)
        = (if (m.id == messageId) = true then f m else m) :: applyById messageId f rest := rfl
      _ = m :: applyById messageId f rest := by rw [if_neg hcond]
      _ = m :: rest := by rw [hrest]

/-- After a delete, no member of the store carries the deleted id. -/
theorem delete_all_ne (messageId : Nat) (s : Store) :
    ∀ m ∈ handleDeleteMessage messageId s, (m.id == messageId) = false := by
  intro m hm
  have h := List.mem_filter.mp hm
  have := h.2
  simp only [bne_iff_ne, ne_eq] at this
  simpa using this

/-- Every completion of `handleTranslate` patches the store through
`applyById` with an id-preserving patch that ends with `loading = false`. -/
theorem run_finish_eq (messageId : Nat) (targetLanguage : String)
    (snapshot : Store) (detectRes : Except Unit (List DetEntry))
    (translateRes : Except Unit String) :
    ∃ f, (handleTranslateRun messageId targetLanguage snapshot detectRes translateRes).finish
          = applyById messageId f
        ∧ (∀ m, (f m).id = m.id) ∧ (∀ m, (f m).loading = false) := by
  unfold handleTranslateRun
  repeat' split
  all_goals exact ⟨_, rfl, fun m => rfl, fun m => rfl⟩

/-- After an id-scoped patch whose result has `loading = false`, every
member of the store carrying that id has `loading = false`. -/
theorem applyById_all_loading_false (messageId : Nat) (f : Msg → Msg)
    (hid : ∀ m, (f m).id = m.id) (hl : ∀ m, (f m).loading = false) :
    ∀ s : Store,
      ((applyById messageId f s).filter (fun m => m.id == messageId)).all
        (fun m => !m.loading) = true := by
  intro s
  induction s with
  | nil => rfl
  | cons m rest ih =>
    have hcons : applyById messageId f (m :: rest)
        = (if (m.id == messageId) = true then f m else m) :: applyById messageId f rest := rfl
    by_cases h : (m.id == messageId) = true
    · have hstep : applyById messageId f (m :: rest)
          = f m :: applyById messageId f rest := by rw [hcons, if_pos h]
      rw [hstep, List.filter_cons]
      have hcond : ((f m).id == messageId) = true := by rw [hid m]; exact h
      simp [hcond, hl m, ih]
    · have hstep : applyById messageId f (m :: rest)
          = m :: applyById messageId f rest := by rw [hcons, if_neg h]
      rw [hstep, List.filter_cons]
      simp [h, ih]

/-- `find?` by id commutes with an id-preserving id-scoped patch. -/
theorem find?_applyById (messageId : Nat) (f : Msg → Msg)
    (hid : ∀ m, (f m).id = m.id) :
    ∀ s : Store,
      (applyById messageId f s).find? (fun m => m.id == messageId)
        = (s.find? (fun m => m.id == messageId)).map f := by
  intro s
  induction s with
  | nil => rfl
  | cons m rest ih =>
    have hcons : applyById messageId f (m :: rest)
        = (if (m.id == messageId) = true then f m else m) :: applyById messageId f rest := rfl
    by_cases h : (m.id == messageId) = true
    · have hstep : applyById messageId f (m :: rest)
          = f m :: applyById messageId f rest := by rw [hcons, if_pos h]
      have hpf : ((f m).id == messageId) = true := by rw [hid m]; exact h
      rw [hstep, List.find?_cons_of_pos (p := fun x : Msg => x.id == messageId) _ hpf,
          List.find?_cons_of_pos (p := fun x : Msg => x.id == messageId) _ h]
      rfl
    · have hb : (m.id == messageId) = false := by
        cases hx : m.id == messageId
        · rfl
        · exact absurd hx h
      have hstep : applyById messageId f (m :: rest)
          = m :: applyById messageId f rest := by rw [hcons, if_neg h]
      rw [hstep,
          List.find?_cons_of_neg (p := fun x : Msg => x.id == messageId) _ (by simp [hb]),
          List.find?_cons_of_neg (p := fun x : Msg => x.id == messageId) _ (by simp [hb])]
      exact ih

end ChatTranslator

/-- C2: deleting a message while a translate for it is in flight and then
letting the translate resolve leaves the store without the message and
with no other change: every completion patch resolves by id on the live
store, finds nothing, and is a no-op, so the store size is unaffected and
no other message is touched. -/
theorem translate_completion_after_delete_noop
    (messageId : Nat) (targetLanguage : String)
    (snapshot s : ChatTranslator.Store)
    (detectRes : Except Unit (List ChatTranslator.DetEntry))
    (translateRes : Except Unit String) :
    (ChatTranslator.handleTranslateRun messageId targetLanguage snapshot
        detectRes translateRes).finish
        (ChatTranslator.handleDeleteMessage messageId s)
      = ChatTranslator.handleDeleteMessage messageId s
    ∧ ((ChatTranslator.handleTranslateRun messageId targetLanguage snapshot
        detectRes translateRes).finish
        (ChatTranslator.handleDeleteMessage messageId s)).length
      = (ChatTranslator.handleDeleteMessage messageId s).length
    ∧ (ChatTranslator.handleDeleteMessage messageId s).all
        (fun m => m.id != messageId) = true := by
  obtain ⟨f, hf, -, -⟩ :=
    ChatTranslator.run_finish_eq messageId targetLanguage snapshot detectRes translateRes
  have h1 : (ChatTranslator.handleTranslateRun messageId targetLanguage snapshot
      detectRes translateRes).finish
      (ChatTranslator.handleDeleteMessage messageId s)
      = ChatTranslator.handleDeleteMessage messageId s := by
    rw [hf]
    exact ChatTranslator.applyById_eq_of_all_ne messageId f _
      (ChatTranslator.delete_all_ne messageId s)
  refine ⟨h1, by rw [h1], ?_⟩
  rw [List.all_eq_true]
  intro m hm
  have := ChatTranslator.delete_all_ne messageId s m hm
  simp [bne, this]

/-- C7: when a translate service call fails, the failure patch records the
translation-failure message in `error`, resets `loading`, and leaves the
`translations` mapping untouched; and after any completion of
`handleTranslate` (success, failure, or same-language exit) the target
message, if still present, has `loading = false`; on a service failure
after a successful fresh detection with a differing language, the
completion is exactly the id-scoped failure patch. -/
theorem translate_failure_state :
    (∀ (m : ChatTranslator.Msg) (tl tr : String),
      (ChatTranslator.translateFailureFn m).error
          = some ChatTranslator.translateFailureMessage
      ∧ (ChatTranslator.translateFailureFn m).loading = false
      ∧ (ChatTranslator.translateFailureFn m).translations = m.translations
      ∧ (ChatTranslator.translateSuccessFn tl tr m).loading = false
      ∧ (ChatTranslator.sameLanguageFn m).loading = false)
    ∧ (∀ (messageId : Nat) (tl : String) (snapshot : ChatTranslator.Store)
        (dr : Except Unit (List ChatTranslator.DetEntry))
        (trr : Except Unit String) (s : ChatTranslator.Store),
        (((ChatTranslator.handleTranslateRun messageId tl snapshot dr trr).finish s).filter
            (fun m => m.id == messageId)).all (fun m => !m.loading) = true)
    ∧ (∀ (messageId : Nat) (tl : String) (snapshot : ChatTranslator.Store)
        (message : ChatTranslator.Msg) (e : ChatTranslator.DetEntry)
        (rest : List ChatTranslator.DetEntry) (u : Unit),
        snapshot.find? (fun m => m.id == messageId) = some message →
        e.detectedLanguage ≠ tl →
        (ChatTranslator.handleTranslateRun messageId tl snapshot
            (.ok (e :: rest)) (.error u)).finish
          = ChatTranslator.applyById messageId ChatTranslator.translateFailureFn) := by
  refine ⟨fun m tl tr => ⟨rfl, rfl, rfl, rfl, rfl⟩, ?_, ?_⟩
  · intro messageId tl snapshot dr trr s
    obtain ⟨f, hf, hid, hl⟩ :=
      ChatTranslator.run_finish_eq messageId tl snapshot dr trr
    rw [hf]
    exact ChatTranslator.applyById_all_loading_false messageId f hid hl s
  · intro messageId tl snapshot message e rest u hfind hne
    simp [ChatTranslator.handleTranslateRun, hfind, hne]

/-- C7 witness: the theorem applied at a concrete one-message store and a
failing translate service call. -/
theorem translate_failure_state_witness :
    ([({ id := 1, text := "Hola", detectedLang := "Spanish", confidence := 95,
         translations := [], showTranslation := false, loading := true,
         error := none } : ChatTranslator.Msg)].find?
        (fun m => m.id == 1)
      = some { id := 1, text := "Hola", detectedLang := "Spanish", confidence := 95,
               translations := [], showTranslation := false, loading := true,
               error := none })
    ∧ ("es" : String) ≠ "en"
    ∧ (ChatTranslator.handleTranslateRun 1 "en"
          [{ id := 1, text := "Hola", detectedLang := "Spanish", confidence := 95,
             translations := [], showTranslation := false, loading := true,
             error := none }]
          (.ok [{ detectedLanguage := "es", confidence := 1 }]) (.error ())).finish
        = ChatTranslator.applyById 1 ChatTranslator.translateFailureFn := by
  refine ⟨by rfl, by decide, ?_⟩
  exact translate_failure_state.2.2 1 "en" _ _
    { detectedLanguage := "es", confidence := 1 } [] () (by rfl) (by decide)

/-- C9 counterexample: a message carrying the error recorded by a prior
failed translate keeps that error after a subsequent successful translate
patch — the success patch does not clear it, contradicting the claim that
the next successful operation clears `lastError`. -/
theorem success_keeps_error :
    (ChatTranslator.translateSuccessFn "en" "Hello"
        { id := 1, text := "Hola", detectedLang := "Spanish", confidence := 95,
          translations := [], showTranslation := false, loading := false,
          error := some ChatTranslator.translateFailureMessage }).error
      = some ChatTranslator.translateFailureMessage
    ∧ (ChatTranslator.translateSuccessFn "en" "Hello"
        { id := 1, text := "Hola", detectedLang := "Spanish", confidence := 95,
          translations := [], showTranslation := false, loading := false,
          error := some ChatTranslator.translateFailureMessage }).error ≠ none := by
  exact ⟨rfl, by simp [ChatTranslator.translateSuccessFn]⟩

/-- C1 counterexample: in the `ChatTranslator` variant a non-blank submit
whose detection fails leaves the store unchanged but surfaces no
user-visible error — the catch branch only writes to the console — so the
claimed disjunct "leaves the store unchanged and surfaces a user-visible
error" fails, and no message was inserted either. -/
theorem submit_silent_detection_failure :
    (ChatTranslator.handleSubmit (fun _ tag => tag) 1 "hello" (.error ()) []).messages = []
    ∧ (ChatTranslator.handleSubmit (fun _ tag => tag) 1 "hello" (.error ()) []).surfacedError
        = none
    ∧ (ChatTranslator.handleSubmit (fun _ tag => tag) 1 "hello" (.error ()) []).calls
        = [ChatTranslator.Call.detect "hello"]
    ∧ (ChatTranslator.handleSubmit (fun _ tag => tag) 1 "hello" (.error ()) []).consoleErrors
        = 1 := by
  refine ⟨?_, ?_, ?_, ?_⟩ <;> rfl

/-- C1 amended: for every input, Submit either inserts exactly one new
message or leaves the store unchanged — never both.  On a detection
failure or on service unavailability no message is inserted; the `Home`
variant surfaces a non-empty user-visible error string, while the
`ChatTranslator` variant surfaces none (the failure is only logged).
The inserted message carries the first detection entry: its display name
in `ChatTranslator`, the raw language code (absent when the service
returns an empty list) in `Home`. -/
theorem submit_insert_or_unchanged :
    (∀ (dn : String → String → String) (now : Nat) (input : String)
       (dr : Except Unit (List ChatTranslator.DetEntry)) (ms : ChatTranslator.Store),
       (ChatTranslator.handleSubmit dn now input dr ms).messages = ms
       ∨ ∃ e : ChatTranslator.DetEntry, ∃ rest : List ChatTranslator.DetEntry,
           dr = .ok (e :: rest)
           ∧ (ChatTranslator.handleSubmit dn now input dr ms).messages
               = { id := now, text := input,
                   detectedLang := dn "en" e.detectedLanguage,
                   confidence := e.confidence * 100, translations := [],
                   showTranslation := false, loading := false,
                   error := none } :: ms)
    ∧ (∀ (dn : String → String → String) (now : Nat) (input : String)
       (u : Unit) (ms : ChatTranslator.Store),
        (ChatTranslator.handleSubmit dn now input (.error u) ms).messages = ms
        ∧ (ChatTranslator.handleSubmit dn now input (.error u) ms).surfacedError = none)
    ∧ (∀ (now : Nat) (input : String)
       (dr : Except (Option String) (List String)) (ms : List Home.Msg),
        (Home.handleSend now input false dr ms).messages = ms
        ∧ (Home.handleSend now input false dr ms).error
            = (if jsTrim input = "" then "Please enter some text"
               else "Language detection service is unavailable."))
    ∧ (∀ (now : Nat) (input : String) (e : Option String) (ms : List Home.Msg),
        jsTrim input ≠ "" →
        (Home.handleSend now input true (.error e) ms).messages = ms
        ∧ (Home.handleSend now input true (.error e) ms).error
            = Home.jsOr e "Failed to detect language"
        ∧ (Home.handleSend now input true (.error e) ms).error ≠ "")
    ∧ (∀ (now : Nat) (input : String) (langs : List String) (ms : List Home.Msg),
        jsTrim input ≠ "" →
        (Home.handleSend now input true (.ok langs) ms).messages
          = ms ++ [{ id := toString now, text := input, detectedLang := langs.head?,
                     translation := none, targetLang := none, summary := none }]
        ∧ (Home.handleSend now input true (.ok langs) ms).error = "") := by
  refine ⟨?_, ?_, ?_, ?_, ?_⟩
  · intro dn now input dr ms
    by_cases hb : jsTrim input = ""
    · left; simp [ChatTranslator.handleSubmit, hb]
    · match dr with
      | .error u => left; simp [ChatTranslator.handleSubmit, hb]
      | .ok [] => left; simp [ChatTranslator.handleSubmit, hb]
      | .ok (e :: rest) =>
        right
        exact ⟨e, rest, rfl, by simp [ChatTranslator.handleSubmit, hb]⟩
  · intro dn now input u ms
    by_cases hb : jsTrim input = "" <;>
      exact ⟨by simp [ChatTranslator.handleSubmit, hb], by simp [ChatTranslator.handleSubmit, hb]⟩
  · intro now input dr ms
    by_cases hb : jsTrim input = "" <;> simp [Home.handleSend, hb]
  · intro now input e ms hb
    refine ⟨by simp [Home.handleSend, hb], by simp [Home.handleSend, hb], ?_⟩
    have : (Home.handleSend now input true (.error e) ms).error
        = Home.jsOr e "Failed to detect language" := by simp [Home.handleSend, hb]
    rw [this]
    match e with
    | none => simp [Home.jsOr]
    | some v =>
      by_cases hv : v = "" <;> simp [Home.jsOr, hv]
  · intro now input langs ms hb
    exact ⟨by simp [Home.handleSend, hb], by simp [Home.handleSend, hb]⟩

/-- C1 witness: the amended theorem applied at a non-blank concrete input,
once with a failing and once with a succeeding detection in the `Home`
variant. -/
theorem submit_insert_or_unchanged_witness :
    (jsTrim "hola" ≠ "")
    ∧ ((Home.handleSend 7 "hola" true (.error (some "boom")) []).messages = ([] : List Home.Msg)
       ∧ (Home.handleSend 7 "hola" true (.error (some "boom")) []).error
           = Home.jsOr (some "boom") "Failed to detect language"
       ∧ (Home.handleSend 7 "hola" true (.error (some "boom")) []).error ≠ "")
    ∧ ((Home.handleSend 7 "hola" true (.ok ["es"]) []).messages
         = [{ id := toString 7, text := "hola", detectedLang := (["es"] : List String).head?,
              translation := none, targetLang := none, summary := none }]
       ∧ (Home.handleSend 7 "hola" true (.ok ["es"]) []).error = "") := by
  refine ⟨by decide, ?_, ?_⟩
  · exact submit_insert_or_unchanged.2.2.2.1 7 "hola" (some "boom") [] (by decide)
  · exact submit_insert_or_unchanged.2.2.2.2 7 "hola" ["es"] [] (by decide)

/-- C3 counterexample: two translate intents for the same message and the
same target language, the second issued while the first is still in
flight (the message already has `loading = true`), issue two translate
service calls for that pair — not exactly one as claimed. -/
theorem duplicate_translate_two_calls :
    ((ChatTranslator.handleTranslateRun 1 "en"
        [{ id := 1, text := "Hola", detectedLang := "Spanish", confidence := 95,
           translations := [], showTranslation := false, loading := false,
           error := none }]
        (.ok [{ detectedLanguage := "es", confidence := 1 }]) (.ok "Hello")).calls
      ++ (ChatTranslator.handleTranslateRun 1 "en"
        (ChatTranslator.handleTranslateStart 1
          [{ id := 1, text := "Hola", detectedLang := "Spanish", confidence := 95,
             translations := [], showTranslation := false, loading := false,
             error := none }])
        (.ok [{ detectedLanguage := "es", confidence := 1 }]) (.ok "Hello")).calls).count
      (ChatTranslator.Call.translate "es" "en" "Hola") = 2 := by
  decide

/-- C3 amended: the handler performs no de-duplication: the service calls
and alerts of `handleTranslate` are independent of the in-flight
`loading` flag, so a second invocation issued while one is in flight for
the same message and target language issues its calls again; the only
guard is the presentation layer disabling that message's Translate
button while `loading` is set. -/
theorem translate_ignores_loading_flag :
    (∀ (messageId : Nat) (tl : String) (s : ChatTranslator.Store)
       (dr : Except Unit (List ChatTranslator.DetEntry)) (trr : Except Unit String),
       (ChatTranslator.handleTranslateRun messageId tl
           (ChatTranslator.handleTranslateStart messageId s) dr trr).calls
         = (ChatTranslator.handleTranslateRun messageId tl s dr trr).calls
       ∧ (ChatTranslator.handleTranslateRun messageId tl
           (ChatTranslator.handleTranslateStart messageId s) dr trr).alerts
         = (ChatTranslator.handleTranslateRun messageId tl s dr trr).alerts)
    ∧ (∀ m : ChatTranslator.Msg,
        ChatTranslator.translateButtonDisabled (ChatTranslator.setLoadingFn m) = true) := by
  refine ⟨?_, fun m => rfl⟩
  intro messageId tl s dr trr
  have hid : ∀ m : ChatTranslator.Msg, (ChatTranslator.setLoadingFn m).id = m.id :=
    fun m => rfl
  have hstart : ChatTranslator.handleTranslateStart messageId s
      = ChatTranslator.applyById messageId ChatTranslator.setLoadingFn s := rfl
  have hfind := ChatTranslator.find?_applyById messageId ChatTranslator.setLoadingFn hid s
  cases hs : s.find? (fun m => m.id == messageId) with
  | none =>
    have h1 : (ChatTranslator.handleTranslateStart messageId s).find?
        (fun m => m.id == messageId) = none := by
      rw [hstart, hfind, hs]; rfl
    constructor <;> simp [ChatTranslator.handleTranslateRun, h1, hs]
  | some m =>
    have h1 : (ChatTranslator.handleTranslateStart messageId s).find?
        (fun m => m.id == messageId) = some (ChatTranslator.setLoadingFn m) := by
      rw [hstart, hfind, hs]; rfl
    match dr with
    | .error u =>
      constructor <;>
        simp [ChatTranslator.handleTranslateRun, h1, hs, ChatTranslator.setLoadingFn]
    | .ok [] =>
      constructor <;>
        simp [ChatTranslator.handleTranslateRun, h1, hs, ChatTranslator.setLoadingFn]
    | .ok (e :: rest) =>
      by_cases he : e.detectedLanguage = tl
      · constructor <;>
          simp [ChatTranslator.handleTranslateRun, h1, hs, he, ChatTranslator.setLoadingFn]
      · match trr with
        | .ok tr =>
          constructor <;>
            simp [ChatTranslator.handleTranslateRun, h1, hs, he, ChatTranslator.setLoadingFn]
        | .error u =>
          constructor <;>
            simp [ChatTranslator.handleTranslateRun, h1, hs, he, ChatTranslator.setLoadingFn]

/-- C9 amended: a recorded per-message error persists: the success patch,
the same-language patch, the loading patch and the clear-translation patch
all leave `error` unchanged; no operation on a surviving message clears a
previously recorded error. -/
theorem error_persists_after_success :
    ∀ (m : ChatTranslator.Msg) (tl tr : String),
      (ChatTranslator.translateSuccessFn tl tr m).error = m.error
      ∧ (ChatTranslator.sameLanguageFn m).error = m.error
      ∧ (ChatTranslator.setLoadingFn m).error = m.error
      ∧ (ChatTranslator.clearTranslationFn m).error = m.error := by
  intro m tl tr
  exact ⟨rfl, rfl, rfl, rfl⟩

namespace ChatTranslator

/-- `find?` by id commutes with mapping an id-preserving function over the
store. -/
theorem find?_map_of_id_pres (messageId : Nat) (f : Msg → Msg)
    (hid : ∀ m, (f m).id = m.id) :
    ∀ s : Store,
      (s.map f).find? (fun m => m.id == messageId)
        = (s.find? (fun m => m.id == messageId)).map f := by
  intro s
  induction s with
  | nil => rfl
  | cons m rest ih =>
    by_cases h : (m.id == messageId) = true
    · have hpf : ((f m).id == messageId) = true := by rw [hid m]; exact h
      rw [List.map_cons, List.find?_cons_of_pos (p := fun x : Msg => x.id == messageId) _ hpf,
          List.find?_cons_of_pos (p := fun x : Msg => x.id == messageId) _ h]
      rfl
    · rw [List.map_cons,
          List.find?_cons_of_neg (p := fun x : Msg => x.id == messageId) _ (by simpa [hid m] using h),
          List.find?_cons_of_neg (p := fun x : Msg => x.id == messageId) _ h]
      exact ih

/-- Updating a key of the spread-update association list leaves every other
key unchanged. -/
theorem setKey_lookup_other (k2 k v : String) (hne : k2 ≠ k) :
    ∀ l : List (String × String), (setKey l k v).lookup k2 = l.lookup k2 := by
  have hb : (k2 == k) = false := beq_eq_false_iff_ne.mpr hne
  intro l
  induction l with
  | nil => simp [setKey, List.lookup, hb]
  | cons p rest ih =>
    by_cases hp : p.1 = k
    · have hb2 : (k2 == p.1) = false := by rw [hp]; exact hb
      simp [setKey, hp, List.lookup, hb, hb2]
    · cases hq : (k2 == p.1) with
      | true => simp [setKey, hp, List.lookup, hq]
      | false => simp [setKey, hp, List.lookup, hq, ih]

/-- Updating a key of the spread-update association list stores exactly the
new value at that key. -/
theorem setKey_lookup_self (k v : String) :
    ∀ l : List (String × String), (setKey l k v).lookup k = some v := by
  intro l
  induction l with
  | nil => simp [setKey, List.lookup]
  | cons p rest ih =>
    by_cases hp : p.1 = k
    · simp [setKey, hp, List.lookup]
    · have hb : (k == p.1) = false := beq_eq_false_iff_ne.mpr (fun h => hp h.symm)
      simp [setKey, hp, List.lookup, hb, ih]

end ChatTranslator

/-- C4 counterexample: a translate whose fresh detection equals the selected
target language raises the same-language notice and issues no translate
call, but it does issue a detection service call — the claim that no
service call of any kind is issued is false. -/
theorem same_language_still_detects :
    (ChatTranslator.handleTranslateRun 1 "es" [msgHola] (.ok [detEs]) (.ok "unused")).calls
      = [ChatTranslator.Call.detect "Hola"]
    ∧ (ChatTranslator.handleTranslateRun 1 "es" [msgHola] (.ok [detEs]) (.ok "unused")).calls ≠ []
    ∧ (ChatTranslator.handleTranslateRun 1 "es" [msgHola] (.ok [detEs]) (.ok "unused")).alerts
      = [ChatTranslator.sameLanguageAlert] := by
  refine ⟨by decide, by decide, by decide⟩

/-- C4 amended: in `ChatTranslator`, when the freshly detected language
equals the selected target language the handler raises the same-language
alert, issues the detection call but no translate call, and completes
with the patch that only resets `loading` (so `translations` is
unchanged); the `Home` variant performs no same-language check at all
and issues the translate call regardless of the stored detected
language. -/
theorem same_language_short_circuit :
    (∀ (messageId : Nat) (tl : String) (snapshot : ChatTranslator.Store)
       (message : ChatTranslator.Msg) (e : ChatTranslator.DetEntry)
       (rest : List ChatTranslator.DetEntry) (trr : Except Unit String),
       snapshot.find? (fun m => m.id == messageId) = some message →
       e.detectedLanguage = tl →
       (ChatTranslator.handleTranslateRun messageId tl snapshot (.ok (e :: rest)) trr).calls
           = [ChatTranslator.Call.detect (jsTrim message.text)]
       ∧ (ChatTranslator.handleTranslateRun messageId tl snapshot (.ok (e :: rest)) trr).alerts
           = [ChatTranslator.sameLanguageAlert]
       ∧ (ChatTranslator.handleTranslateRun messageId tl snapshot (.ok (e :: rest)) trr).finish
           = ChatTranslator.applyById messageId ChatTranslator.sameLanguageFn)
    ∧ (∀ m : ChatTranslator.Msg,
        (ChatTranslator.sameLanguageFn m).translations = m.translations
        ∧ (ChatTranslator.sameLanguageFn m).loading = false)
    ∧ (∀ (messageId targetLang : String) (snapshot : List Home.Msg)
        (i : Nat) (message : Home.Msg) (trr : Except (Option String) String),
        snapshot.findIdx? (fun m => m.id == messageId) = some i →
        snapshot[i]? = some message →
        (Home.handleTranslateRun messageId targetLang snapshot trr).calls
          = [Home.Call.translate message.text targetLang message.detectedLang]) := by
  refine ⟨?_, fun m => ⟨rfl, rfl⟩, ?_⟩
  · intro messageId tl snapshot message e rest trr hfind he
    refine ⟨?_, ?_, ?_⟩ <;> simp [ChatTranslator.handleTranslateRun, hfind, he]
  · intro messageId targetLang snapshot i message trr hidx hget
    match trr with
    | .ok tr => simp [Home.handleTranslateRun, hidx, hget]
    | .error e => simp [Home.handleTranslateRun, hidx, hget]

/-- C4 witness: the amended theorem applied to a one-message store whose
fresh detection result is the selected target language, and to a `Home`
message whose stored detected language equals the target. -/
theorem same_language_short_circuit_witness :
    (([msgHola].find? (fun m => m.id == 1) = some msgHola)
     ∧ detEs.detectedLanguage = "es")
    ∧ ((ChatTranslator.handleTranslateRun 1 "es" [msgHola] (.ok [detEs]) (.ok "unused")).calls
         = [ChatTranslator.Call.detect (jsTrim msgHola.text)]
       ∧ (ChatTranslator.handleTranslateRun 1 "es" [msgHola] (.ok [detEs]) (.ok "unused")).alerts
         = [ChatTranslator.sameLanguageAlert]
       ∧ (ChatTranslator.handleTranslateRun 1 "es" [msgHola] (.ok [detEs]) (.ok "unused")).finish
         = ChatTranslator.applyById 1 ChatTranslator.sameLanguageFn)
    ∧ (([msgHomeEs].findIdx? (fun m => m.id == "1") = some 0)
       ∧ (([msgHomeEs] : List Home.Msg)[0]? = some msgHomeEs)
       ∧ (Home.handleTranslateRun "1" "en" [msgHomeEs] (.ok "ignored")).calls
           = [Home.Call.translate msgHomeEs.text "en" msgHomeEs.detectedLang]) := by
  refine ⟨⟨rfl, rfl⟩, ?_, rfl, rfl, ?_⟩
  · exact same_language_short_circuit.1 1 "es" [msgHola] msgHola detEs [] (.ok "unused") rfl rfl
  · exact same_language_short_circuit.2.2 "1" "en" [msgHomeEs] 0 msgHomeEs (.ok "ignored") rfl rfl

/-- C5 counterexample: clearing the translation of a message holding
translations for two target languages removes both entries — the handler
takes no language argument and empties the whole mapping, so claiming
the entry for the other language is left unchanged is false. -/
theorem clear_translation_removes_all :
    (ChatTranslator.handleClearTranslation 1 [msgTwoTranslations]).map
        (fun m => m.translations) = [[]]
    ∧ msgTwoTranslations.translations.lookup "fr" = some "Bonjour"
    ∧ ((ChatTranslator.handleClearTranslation 1 [msgTwoTranslations]).map
        (fun m => m.translations.lookup "fr")) = [none] := by
  refine ⟨rfl, rfl, rfl⟩

/-- C5 amended: `handleClearTranslation(id)` empties the entire
`translations` mapping of the message with that id and resets its
`showTranslation` flag, leaving `text`, `detectedLang`, `confidence`,
`loading` and `error` of that message unchanged, leaving all other
messages entirely unchanged, and preserving the store size (the variant
has no `summary` field to preserve). -/
theorem clear_translation_frame :
    (∀ (messageId : Nat) (s : ChatTranslator.Store),
       (ChatTranslator.handleClearTranslation messageId s).length = s.length)
    ∧ (∀ (messageId : Nat) (s : ChatTranslator.Store) (i : Nat)
        (h : i < s.length)
        (h2 : i < (ChatTranslator.handleClearTranslation messageId s).length),
        ((ChatTranslator.handleClearTranslation messageId s).get ⟨i, h2⟩).text
            = (s.get ⟨i, h⟩).text
        ∧ ((ChatTranslator.handleClearTranslation messageId s).get ⟨i, h2⟩).detectedLang
            = (s.get ⟨i, h⟩).detectedLang
        ∧ ((ChatTranslator.handleClearTranslation messageId s).get ⟨i, h2⟩).confidence
            = (s.get ⟨i, h⟩).confidence
        ∧ ((ChatTranslator.handleClearTranslation messageId s).get ⟨i, h2⟩).loading
            = (s.get ⟨i, h⟩).loading
        ∧ ((ChatTranslator.handleClearTranslation messageId s).get ⟨i, h2⟩).error
            = (s.get ⟨i, h⟩).error
        ∧ ((s.get ⟨i, h⟩).id = messageId →
            ((ChatTranslator.handleClearTranslation messageId s).get ⟨i, h2⟩).translations = []
            ∧ ((ChatTranslator.handleClearTranslation messageId s).get ⟨i, h2⟩).showTranslation
                = false)
        ∧ ((s.get ⟨i, h⟩).id ≠ messageId →
            (ChatTranslator.handleClearTranslation messageId s).get ⟨i, h2⟩ = s.get ⟨i, h⟩)) := by
  constructor
  · intro messageId s
    simp [ChatTranslator.handleClearTranslation, ChatTranslator.applyById]
  · intro messageId s i h h2
    have hg : (ChatTranslator.handleClearTranslation messageId s).get ⟨i, h2⟩
        = if ((s.get ⟨i, h⟩).id == messageId) = true
          then ChatTranslator.clearTranslationFn (s.get ⟨i, h⟩)
          else s.get ⟨i, h⟩ := by
      simp [ChatTranslator.handleClearTranslation, ChatTranslator.applyById, List.getElem_map]
    by_cases hid : (s.get ⟨i, h⟩).id = messageId
    · have hbeq : ((s.get ⟨i, h⟩).id == messageId) = true := beq_iff_eq.mpr hid
      rw [hg, if_pos hbeq]
      exact ⟨rfl, rfl, rfl, rfl, rfl, fun _ => ⟨rfl, rfl⟩, fun hne => absurd hid hne⟩
    · have hbeq : ¬ (((s.get ⟨i, h⟩).id == messageId) = true) :=
        fun hcon => hid (beq_iff_eq.mp hcon)
      rw [hg, if_neg hbeq]
      exact ⟨rfl, rfl, rfl, rfl, rfl, fun hcon => absurd hcon hid, fun _ => rfl⟩

/-- C5 witness: the amended theorem applied at index 0 of a one-message
store whose message holds two translations. -/
theorem clear_translation_frame_witness :
    (0 < ([msgTwoTranslations] : ChatTranslator.Store).length)
    ∧ ((ChatTranslator.handleClearTranslation 1 [msgTwoTranslations]).get
          ⟨0, by decide⟩).translations = []
    ∧ ((ChatTranslator.handleClearTranslation 1 [msgTwoTranslations]).get
          ⟨0, by decide⟩).text
        = (([msgTwoTranslations] : ChatTranslator.Store).get ⟨0, by decide⟩).text := by
  refine ⟨by decide, ?_, ?_⟩
  · exact ((clear_translation_frame.2 1 [msgTwoTranslations] 0 (by decide)
      (by decide)).2.2.2.2.2.1 rfl).1
  · exact (clear_translation_frame.2 1 [msgTwoTranslations] 0 (by decide) (by decide)).1

/-- C6 counterexample: in the `Home` variant a second successful translate
to a different target language overwrites the single stored translation:
afterwards the previously stored Spanish translation is gone, so an
entry for another target language is removed without an explicit clear
instead of being preserved. -/
theorem home_translate_overwrites_previous :
    (Home.handleTranslateRun "1" "fr" [msgHomeEs] (.ok "Bonjour")).finish [msgHomeEs]
      = [{ id := "1", text := "Hello", detectedLang := some "en",
           translation := some "Bonjour", targetLang := some "fr", summary := none }]
    ∧ msgHomeEs.translation = some "Hola"
    ∧ msgHomeEs.targetLang = some "es" := by
  refine ⟨by decide, rfl, rfl⟩

/-- C6 amended: in `ChatTranslator` the translations mapping grows
monotonically — a successful translate adds or replaces only the entry
for its target language and keeps every other entry, while the failure,
loading and same-language patches leave the mapping untouched, so only
the explicit clear removes entries; in `Home` a message stores only the
latest translation, which each successful translate overwrites. -/
theorem translations_monotone_chat :
    (∀ (m : ChatTranslator.Msg) (tl tr k : String),
        k ≠ tl →
        ((ChatTranslator.translateSuccessFn tl tr m).translations).lookup k
            = m.translations.lookup k)
    ∧ (∀ (m : ChatTranslator.Msg) (tl tr : String),
        (ChatTranslator.translateSuccessFn tl tr m).translations.lookup tl = some tr)
    ∧ (∀ m : ChatTranslator.Msg,
        (ChatTranslator.translateFailureFn m).translations = m.translations
        ∧ (ChatTranslator.setLoadingFn m).translations = m.translations
        ∧ (ChatTranslator.sameLanguageFn m).translations = m.translations) := by
  refine ⟨?_, ?_, fun m => ⟨rfl, rfl, rfl⟩⟩
  · intro m tl tr k hk
    exact ChatTranslator.setKey_lookup_other k tl tr hk m.translations
  · intro m tl tr
    exact ChatTranslator.setKey_lookup_self tl tr m.translations

/-- C6 witness: the amended theorem applied to a message already holding a
Spanish and a French entry, translated again into French: the Spanish
entry is preserved. -/
theorem translations_monotone_chat_witness :
    (("es" : String) ≠ "fr")
    ∧ (ChatTranslator.translateSuccessFn "fr" "Salut" msgTwoTranslations).translations.lookup "es"
        = msgTwoTranslations.translations.lookup "es" := by
  exact ⟨by decide,
    translations_monotone_chat.1 msgTwoTranslations "fr" "Salut" "es" (by decide)⟩

/-- C8 counterexample: `handleSummarize` enforces no guard: on a message
with detected language "fr" and text length 500 the summarize service
call is still issued and, on success, the summary is set — the intent is
not rejected; the guard exists only as the render-time condition for
showing the button, which is false for this message. -/
theorem summarize_no_intent_guard :
    Home.summarizeButtonShown msgHomeFr = false
    ∧ (Home.handleSummarizeRun "1" [msgHomeFr] (.ok "short")).calls
        = [Home.Call.summarize msgHomeFr.text]
    ∧ (Home.handleSummarizeRun "1" [msgHomeFr] (.ok "short")).finish [msgHomeFr]
        = [{ id := "1", text := msgHomeFr.text, detectedLang := some "fr",
             translation := none, targetLang := none, summary := some "short" }] := by
  refine ⟨by decide, rfl, rfl⟩

/-- C8 amended: the summarize guard (detected language "en" and length
over 150) is enforced only at the presentation layer — the Summarize
button is rendered exactly for qualifying messages — while the intent
handler performs no check: once the id resolves it issues the summarize
call for any message and, on success, writes the summary. -/
theorem summarize_guard_presentation_only :
    (∀ m : Home.Msg,
       Home.summarizeButtonShown m = true
         ↔ (m.detectedLang = some "en" ∧ 150 < m.text.length))
    ∧ (∀ (messageId : String) (snapshot : List Home.Msg) (i : Nat)
        (message : Home.Msg) (summary : String) (live : List Home.Msg),
        snapshot.findIdx? (fun m => m.id == messageId) = some i →
        snapshot[i]? = some message →
        (Home.handleSummarizeRun messageId snapshot (.ok summary)).calls
            = [Home.Call.summarize message.text]
        ∧ (Home.handleSummarizeRun messageId snapshot (.ok summary)).finish live
            = snapshot.set i { message with summary := some summary })
    ∧ (∀ (messageId : String) (snapshot : List Home.Msg) (i : Nat)
        (message : Home.Msg) (e : Option String),
        snapshot.findIdx? (fun m => m.id == messageId) = some i →
        snapshot[i]? = some message →
        (Home.handleSummarizeRun messageId snapshot (.error e)).calls
            = [Home.Call.summarize message.text]) := by
  refine ⟨?_, ?_, ?_⟩
  · intro m
    simp [Home.summarizeButtonShown]
  · intro messageId snapshot i message summary live hidx hget
    constructor <;> simp [Home.handleSummarizeRun, hidx, hget]
  · intro messageId snapshot i message e hidx hget
    simp [Home.handleSummarizeRun, hidx, hget]

/-- C8 witness: the amended theorem applied to the French 500-character
message: the summarize intent issues the call and writes the summary. -/
theorem summarize_guard_presentation_only_witness :
    (([msgHomeFr] : List Home.Msg).findIdx? (fun m => m.id == "1") = some 0)
    ∧ (([msgHomeFr] : List Home.Msg)[0]? = some msgHomeFr)
    ∧ ((Home.handleSummarizeRun "1" [msgHomeFr] (.ok "resume")).calls
        = [Home.Call.summarize msgHomeFr.text]
       ∧ (Home.handleSummarizeRun "1" [msgHomeFr] (.ok "resume")).finish [msgHomeFr]
        = [msgHomeFr].set 0 { msgHomeFr with summary := some "resume" }) := by
  refine ⟨rfl, rfl, ?_⟩
  exact summarize_guard_presentation_only.2.1 "1" [msgHomeFr] 0 msgHomeFr "resume"
    [msgHomeFr] rfl rfl

/-- C10: in `ChatTranslator` every translate issues a fresh detection call
on the message's trimmed text and uses its first entry — not the stored
`detectedLang`, which holds a display name produced at submit time —
both as the translation source language and for the same-language
comparison: the calls and alerts are invariant under arbitrary changes
of the stored `detectedLang`, the translate call carries the freshly
detected tag as source, and submit stores the display name of the
freshly detected tag. -/
theorem translate_uses_fresh_detection :
    (∀ (messageId : Nat) (tl : String) (snapshot : ChatTranslator.Store)
       (message : ChatTranslator.Msg) (e : ChatTranslator.DetEntry)
       (rest : List ChatTranslator.DetEntry) (tr : String),
       snapshot.find? (fun m => m.id == messageId) = some message →
       e.detectedLanguage ≠ tl →
       (ChatTranslator.handleTranslateRun messageId tl snapshot
           (.ok (e :: rest)) (.ok tr)).calls
         = [ChatTranslator.Call.detect (jsTrim message.text),
            ChatTranslator.Call.translate e.detectedLanguage tl (jsTrim message.text)])
    ∧ (∀ (messageId : Nat) (tl : String) (snapshot : ChatTranslator.Store)
       (message : ChatTranslator.Msg) (e : ChatTranslator.DetEntry)
       (rest : List ChatTranslator.DetEntry) (trr : Except Unit String),
       snapshot.find? (fun m => m.id == messageId) = some message →
       e.detectedLanguage = tl →
       (ChatTranslator.handleTranslateRun messageId tl snapshot
           (.ok (e :: rest)) trr).alerts
         = [ChatTranslator.sameLanguageAlert])
    ∧ (∀ (messageId : Nat) (tl : String) (s : ChatTranslator.Store)
        (g : ChatTranslator.Msg → String)
        (dr : Except Unit (List ChatTranslator.DetEntry)) (trr : Except Unit String),
        (ChatTranslator.handleTranslateRun messageId tl
            (s.map (fun m => { m with detectedLang := g m })) dr trr).calls
          = (ChatTranslator.handleTranslateRun messageId tl s dr trr).calls
        ∧ (ChatTranslator.handleTranslateRun messageId tl
            (s.map (fun m => { m with detectedLang := g m })) dr trr).alerts
          = (ChatTranslator.handleTranslateRun messageId tl s dr trr).alerts)
    ∧ (∀ (dn : String → String → String) (now : Nat) (input : String)
        (e : ChatTranslator.DetEntry) (rest : List ChatTranslator.DetEntry)
        (ms : ChatTranslator.Store),
        jsTrim input ≠ "" →
        (ChatTranslator.handleSubmit dn now input (.ok (e :: rest)) ms).messages.head?
          = some { id := now, text := input,
                   detectedLang := dn "en" e.detectedLanguage,
                   confidence := e.confidence * 100, translations := [],
                   showTranslation := false, loading := false, error := none }) := by
  refine ⟨?_, ?_, ?_, ?_⟩
  · intro messageId tl snapshot message e rest tr hfind hne
    simp [ChatTranslator.handleTranslateRun, hfind, hne]
  · intro messageId tl snapshot message e rest trr hfind he
    simp [ChatTranslator.handleTranslateRun, hfind, he]
  · intro messageId tl s g dr trr
    have hid : ∀ m : ChatTranslator.Msg,
        (({ m with detectedLang := g m } : ChatTranslator.Msg)).id = m.id := fun m => rfl
    have hfind := ChatTranslator.find?_map_of_id_pres messageId
      (fun m => { m with detectedLang := g m }) hid s
    cases hs : s.find? (fun m => m.id == messageId) with
    | none =>
      have h1 : (s.map (fun m => ({ m with detectedLang := g m } : ChatTranslator.Msg))).find?
          (fun m => m.id == messageId) = none := by rw [hfind, hs]; rfl
      constructor <;> simp [ChatTranslator.handleTranslateRun, h1, hs]
    | some m =>
      have h1 : (s.map (fun m => ({ m with detectedLang := g m } : ChatTranslator.Msg))).find?
          (fun m => m.id == messageId) = some { m with detectedLang := g m } := by
        rw [hfind, hs]; rfl
      match dr with
      | .error u => constructor <;> simp [ChatTranslator.handleTranslateRun, h1, hs]
      | .ok [] => constructor <;> simp [ChatTranslator.handleTranslateRun, h1, hs]
      | .ok (e :: rest) =>
        by_cases he : e.detectedLanguage = tl
        · constructor <;> simp [ChatTranslator.handleTranslateRun, h1, hs, he]
        · match trr with
          | .ok tr =>
            constructor <;> simp [ChatTranslator.handleTranslateRun, h1, hs, he]
          | .error u =>
            constructor <;> simp [ChatTranslator.handleTranslateRun, h1, hs, he]
  · intro dn now input e rest ms hb
    simp [ChatTranslator.handleSubmit, hb]

/-- C10 witness: the theorem applied to a concrete store: the translate
call carries the freshly detected "es" (not the stored display name
"Spanish"), the same-language comparison uses the fresh tag, and submit
stores the display name of the fresh tag. -/
theorem translate_uses_fresh_detection_witness :
    (([msgHola].find? (fun m => m.id == 1) = some msgHola)
     ∧ (("es" : String) ≠ "en")
     ∧ (ChatTranslator.handleTranslateRun 1 "en" [msgHola] (.ok [detEs]) (.ok "Hello")).calls
         = [ChatTranslator.Call.detect (jsTrim msgHola.text),
            ChatTranslator.Call.translate detEs.detectedLanguage "en" (jsTrim msgHola.text)])
    ∧ ((detEs.detectedLanguage = "es")
       ∧ (ChatTranslator.handleTranslateRun 1 "es" [msgHola] (.ok [detEs]) (.ok "x")).alerts
           = [ChatTranslator.sameLanguageAlert])
    ∧ ((jsTrim "hola" ≠ "")
       ∧ (ChatTranslator.handleSubmit (fun _lc t => t) 9 "hola" (.ok [detEs]) []).messages.head?
           = some { id := 9, text := "hola", detectedLang := detEs.detectedLanguage,
                    confidence := detEs.confidence * 100, translations := [],
                    showTranslation := false, loading := false, error := none }) := by
  refine ⟨⟨rfl, by decide, ?_⟩, ⟨rfl, ?_⟩, ⟨by decide, ?_⟩⟩
  · exact translate_uses_fresh_detection.1 1 "en" [msgHola] msgHola detEs [] "Hello"
      rfl (by decide)
  · exact translate_uses_fresh_detection.2.1 1 "es" [msgHola] msgHola detEs [] (.ok "x")
      rfl rfl
  · exact translate_uses_fresh_detection.2.2.2 (fun _lc t => t) 9 "hola" detEs [] []
      (by decide)
